import Mathlib

/-
Verification of the signal-to-trade simulation engine and the
prediction-outcome evaluation pipeline of the stocks repository.

Shallow embedding conventions:
* Python floats are modelled as rationals (ℚ); prices, confidences,
  percentages are exact rationals.
* Python strings (signal literals "long"/"short"/"exit"/"hold",
  prediction types "LONG"/"SHORT"/"CLOSE", outcome labels) are Lean
  Strings, compared with decidable equality exactly as the source
  compares them with ==.
* Fallible code paths (missing price data, predictions that cannot be
  evaluated yet) return Option, mirroring the source returning None.
-/

/- ===== Backtest engine: src/src/strategies/strategy.py ===== -/

/-- Closed-position record emitted by `Strategy.backtest`
(strategy.py lines 238-247). Dates are omitted; all numeric fields of
the source `Trade` are kept. -/
structure TradeRec where
  entry_price : ℚ
  exit_price : ℚ
  typ : String
  pnl : ℚ
  return_pct : ℚ
  size : ℤ
deriving DecidableEq, Repr

/-- Open position dict built by `Strategy.backtest` (strategy.py lines
218-225). `typ` is the signal string ("long" or "short"). -/
structure Position where
  typ : String
  entryPrice : ℚ
  size : ℤ
  stop_loss : ℚ
  profit_target : ℚ
deriving DecidableEq, Repr

/-- Direction-aware P&L, `Strategy.calculate_pnl` (strategy.py lines
302-306): long (exit-entry)*size, anything else (entry-exit)*size. -/
def calculate_pnl (position_type : String) (exit_price entry_price : ℚ) (size : ℤ) : ℚ :=
  if position_type = "long" then (exit_price - entry_price) * (size : ℚ)
  else (entry_price - exit_price) * (size : ℚ)

/-- Direction-aware return, `Strategy.calculate_return` (strategy.py
lines 308-312): long exit/entry - 1, anything else entry/exit - 1. -/
def calculate_return (position_type : String) (exit_price entry_price : ℚ) : ℚ :=
  if position_type = "long" then exit_price / entry_price - 1
  else entry_price / exit_price - 1

/-- Entry branch of `Strategy.backtest` (strategy.py lines 217-225),
translated with the actual precedence of the Python conditional
expression: `1 - self.stop_loss if signal == "long" else -self.stop_loss`
parses as `(1 - stop_pct) if signal == "long" else (-stop_pct)`, so for a
short entry the source multiplies the close by the bare negated
percentage, not by (1 + stop_pct). -/
def openPosition (signal : String) (close : ℚ) (position_size : ℤ)
    (stop_pct profit_pct : ℚ) : Position :=
  { typ := signal
    entryPrice := close
    size := position_size
    stop_loss := close * (if signal = "long" then 1 - stop_pct else -stop_pct)
    profit_target := close * (if signal = "long" then 1 + profit_pct else -profit_pct) }

/-- One iteration of the `Strategy.backtest` position state machine
(strategy.py lines 209-248) at a bar with the given generated signal and
close: a Flat state (none) opens on "long"/"short"; an Open state closes
(emitting a TradeRec at the close of the bar) on an "exit" signal or when
the close crosses the stop-loss or profit-target level, with the
direction-specific comparison of the source. -/
def backtestStep (stop_pct profit_pct : ℚ) (position_size : ℤ)
    (position : Option Position) (signal : String) (close : ℚ) :
    Option Position × Option TradeRec :=
  match position with
  | none =>
      if signal = "long" ∨ signal = "short" then
        (some (openPosition signal close position_size stop_pct profit_pct), none)
      else (none, none)
  | some p =>
      let should_exit :=
        if p.typ = "long" then
          signal = "exit" ∨ close ≤ p.stop_loss ∨ p.profit_target ≤ close
        else
          signal = "exit" ∨ p.stop_loss ≤ close ∨ close ≤ p.profit_target
      if should_exit then
        (none, some { entry_price := p.entryPrice
                      exit_price := close
                      typ := p.typ
                      pnl := calculate_pnl p.typ close p.entryPrice p.size
                      return_pct := calculate_return p.typ close p.entryPrice
                      size := p.size })
      else (some p, none)

/- ===== Outcome evaluator: src/src/performance/prediction_tracker.py ===== -/

/-- Result dict of `PredictionTracker.calculate_outcome`
(prediction_tracker.py lines 386-393); the exit_date string is
represented by `days_held` alone. -/
structure OutcomeDict where
  outcome : String
  exit_price : ℚ
  pnl : ℚ
  return_pct : ℚ
  days_held : ℤ
deriving DecidableEq, Repr

/-- `PredictionTracker.calculate_outcome` (prediction_tracker.py lines
364-393). `action` is accepted and ignored exactly as in the source.
P&L and return are per share: LONG pnl = exit - entry and
return = (exit-entry)/entry; SHORT pnl = entry - exit and
return = (entry-exit)/entry; any other type gives 0 for both.
Classification: target_hit to success, stop_loss to failure, any other
outcome type (the timeout path) to success when return_pct > 0 else
failure. -/
def calculate_outcome (action pred_type : String)
    (entry_price exit_price stop_loss take_profit : ℚ)
    (days_held : ℤ) (outcome_type : String) : OutcomeDict :=
  let pnl : ℚ :=
    if pred_type = "LONG" then exit_price - entry_price
    else if pred_type = "SHORT" then entry_price - exit_price
    else 0
  let return_pct : ℚ :=
    if pred_type = "LONG" then (exit_price - entry_price) / entry_price
    else if pred_type = "SHORT" then (entry_price - exit_price) / entry_price
    else 0
  let outcome : String :=
    if outcome_type = "target_hit" then "success"
    else if outcome_type = "stop_loss" then "failure"
    else if 0 < return_pct then "success" else "failure"
  { outcome := outcome
    exit_price := exit_price
    pnl := pnl
    return_pct := return_pct
    days_held := days_held }

/-- One bar of the forward price series used by
`PredictionTracker.evaluate_prediction_outcome`. `days_held` is the
source quantity `(day_date - start_date).days`; bars dated on or before
the issue date have `days_held ≤ 0` and are skipped by the walk. -/
structure DayData where
  days_held : ℤ
  high : ℚ
  low : ℚ
  close : ℚ
deriving DecidableEq, Repr

/-- `PredictionTracker.evaluate_prediction_outcome`
(prediction_tracker.py lines 290-362) with the cached series already
loaded as a list of bars. The first component of the result is the
`outcome_type` string the source passes to `calculate_outcome` on that
path (the label: "timeout", "stop_loss" or "target_hit"); the second is
the returned dict. The walk: skip bars on or before the issue date; at
the first bar with days_held > 30 (max_days in the source) return the
timeout outcome at that close; otherwise for LONG check low ≤ stop_loss
then high ≥ take_profit, for SHORT check high ≥ stop_loss then
low ≤ take_profit; a series exhausted without any of these returns
none. -/
def evaluate_prediction_outcome (action pred_type : String)
    (entry_price stop_loss take_profit : ℚ) :
    List DayData → Option (String × OutcomeDict)
  | [] => none
  | d :: rest =>
    if d.days_held ≤ 0 then
      evaluate_prediction_outcome action pred_type entry_price stop_loss take_profit rest
    else if 30 < d.days_held then
      some ("timeout",
        calculate_outcome action pred_type entry_price d.close stop_loss take_profit
          d.days_held "timeout")
    else if pred_type = "LONG" then
      if d.low ≤ stop_loss then
        some ("stop_loss",
          calculate_outcome action pred_type entry_price stop_loss stop_loss take_profit
            d.days_held "stop_loss")
      else if take_profit ≤ d.high then
        some ("target_hit",
          calculate_outcome action pred_type entry_price take_profit stop_loss take_profit
            d.days_held "target_hit")
      else evaluate_prediction_outcome action pred_type entry_price stop_loss take_profit rest
    else if pred_type = "SHORT" then
      if stop_loss ≤ d.high then
        some ("stop_loss",
          calculate_outcome action pred_type entry_price stop_loss stop_loss take_profit
            d.days_held "stop_loss")
      else if d.low ≤ take_profit then
        some ("target_hit",
          calculate_outcome action pred_type entry_price take_profit stop_loss take_profit
            d.days_held "target_hit")
      else evaluate_prediction_outcome action pred_type entry_price stop_loss take_profit rest
    else evaluate_prediction_outcome action pred_type entry_price stop_loss take_profit rest

/- ===== Theorems: C1, C2 (counterexample), C10 ===== -/

/-- C1: in the backtest engine, a Flat state with a long signal opens a
position with entry_price = close, stop_loss = close*(1 - stop_pct),
profit_target = close*(1 + profit_pct) and the fixed size, exactly as
the claim states; but a Flat state with a short signal opens a position
whose stop_loss is close*(-stop_pct) and whose profit_target is
close*(-profit_pct) — negative levels instead of the claimed
close*(1 + stop_pct) = 108 and close*(1 - profit_pct) = 85 — because of
the precedence of the conditional expression at strategy.py lines
223-224. Evaluated at the failing input close = 100, stop_pct = 8/100,
profit_pct = 15/100, position_size = 100. -/
theorem c1_code_eval :
    backtestStep (8/100) (15/100) 100 none "long" 100 =
      (some { typ := "long", entryPrice := 100, size := 100,
              stop_loss := 100 * (1 - 8/100), profit_target := 100 * (1 + 15/100) }, none)
    ∧ backtestStep (8/100) (15/100) 100 none "short" 100 =
      (some { typ := "short", entryPrice := 100, size := 100,
              stop_loss := -8, profit_target := -15 }, none)
    ∧ ((-8 : ℚ) ≠ 100 * (1 + 8/100)) ∧ ((-15 : ℚ) ≠ 100 * (1 - 15/100)) := by
  refine ⟨?_, ?_, by norm_num, by norm_num⟩ <;>
    simp [backtestStep, openPosition] <;> norm_num

/-- C2 counterexample: for a closed SHORT prediction with entry 100,
exit 50, size 100, the outcome evaluator computes pnl = 50 and
return_pct = 1/2, while the backtest engine formulas at the same entry,
exit, size and direction give pnl = (entry-exit)*size = 5000 and
return_pct = entry/exit - 1 = 1; so the evaluator does not use the
same direction-aware formulas. -/
theorem c2_counterexample :
    (calculate_outcome "SELL" "SHORT" 100 50 0 0 5 "timeout").pnl = 50
    ∧ calculate_pnl "short" 50 100 100 = 5000
    ∧ ((50 : ℚ) ≠ 5000)
    ∧ (calculate_outcome "SELL" "SHORT" 100 50 0 0 5 "timeout").return_pct = 1/2
    ∧ calculate_return "short" 50 100 = 1
    ∧ ((1/2 : ℚ) ≠ 1) := by
  refine ⟨?_, ?_, by norm_num, ?_, ?_, by norm_num⟩ <;>
    simp [calculate_outcome, calculate_pnl, calculate_return] <;> norm_num

/-- Helper: a short return measured against entry, (e - x)/e, never
agrees with the engine short return e/x - 1 at nonzero distinct
prices. -/
lemma short_return_denominators_differ (e x : ℚ) (he : e ≠ 0) (hx : x ≠ 0)
    (hne : x ≠ e) : (e - x) / e ≠ e / x - 1 := by
  intro h
  apply hne
  have key : ((e - x) / e) * (e * x) = (e / x - 1) * (e * x) := by rw [h]
  have l : ((e - x) / e) * (e * x) = (e - x) * x := by
    field_simp
    ring
  have r : (e / x - 1) * (e * x) = e * e - e * x := by
    field_simp
    ring
  have h2 : (e - x) * x = e * e - e * x := by rw [← l, key, r]
  have hsq : (e - x) * (e - x) = 0 := by linear_combination -h2
  have : e - x = 0 := mul_self_eq_zero.mp hsq
  linarith

/-- C2 amended: the outcome evaluator computes per-share quantities.
For LONG its pnl equals the engine pnl with size 1 and, for nonzero
entry, its return_pct equals the engine return exit/entry - 1. For
SHORT its pnl equals the engine pnl with size 1, but its return_pct is
(entry - exit)/entry, which differs from the engine return
entry/exit - 1 whenever entry and exit are nonzero and distinct. -/
theorem c2_amended (action : String) (entry exit_p sl tp : ℚ) (d : ℤ) (ot : String) :
    (calculate_outcome action "LONG" entry exit_p sl tp d ot).pnl
        = calculate_pnl "long" exit_p entry 1
    ∧ (calculate_outcome action "SHORT" entry exit_p sl tp d ot).pnl
        = calculate_pnl "short" exit_p entry 1
    ∧ (entry ≠ 0 →
        (calculate_outcome action "LONG" entry exit_p sl tp d ot).return_pct
          = calculate_return "long" exit_p entry)
    ∧ (calculate_outcome action "SHORT" entry exit_p sl tp d ot).return_pct
        = (entry - exit_p) / entry
    ∧ (entry ≠ 0 → exit_p ≠ 0 → exit_p ≠ entry →
        (calculate_outcome action "SHORT" entry exit_p sl tp d ot).return_pct
          ≠ calculate_return "short" exit_p entry) := by
  refine ⟨?_, ?_, ?_, ?_, ?_⟩
  · simp [calculate_outcome, calculate_pnl]
  · simp [calculate_outcome, calculate_pnl]
  · intro he
    simp only [calculate_outcome, calculate_return]
    norm_num
    field_simp
  · simp [calculate_outcome]
  · intro he hx hne
    have hL : (calculate_outcome action "SHORT" entry exit_p sl tp d ot).return_pct
        = (entry - exit_p) / entry := by simp [calculate_outcome]
    have hR : calculate_return "short" exit_p entry = entry / exit_p - 1 := by
      simp [calculate_return]
    rw [hL, hR]
    exact short_return_denominators_differ entry exit_p he hx hne

/-- C2 amended witness: the amended statement evaluated at action SELL,
entry 100, exit 50, with every hypothesis discharged at that input. -/
theorem c2_amended_witness :
    (calculate_outcome "SELL" "SHORT" 100 50 0 0 5 "timeout").return_pct
      ≠ calculate_return "short" 50 100 := by
  have h := c2_amended "SELL" 100 50 0 0 5 "timeout"
  exact h.2.2.2.2 (by norm_num) (by norm_num) (by norm_num)

/-- C10: for a prediction whose type is neither LONG nor SHORT,
calculate_outcome returns pnl = 0 and return_pct = 0 regardless of the
prices, and a timeout outcome for such a prediction is classified as
failure since 0 > 0 is false. -/
theorem c10_close_outcome (action t : String) (entry exit_p sl tp : ℚ) (d : ℤ)
    (ot : String) (h1 : t ≠ "LONG") (h2 : t ≠ "SHORT") :
    (calculate_outcome action t entry exit_p sl tp d ot).pnl = 0
    ∧ (calculate_outcome action t entry exit_p sl tp d ot).return_pct = 0
    ∧ (calculate_outcome action t entry exit_p sl tp d "timeout").outcome = "failure" := by
  simp [calculate_outcome, h1, h2]

/-- C10 witness: the statement at type CLOSE with entry 100, exit 150,
both hypotheses discharged concretely. -/
theorem c10_close_outcome_witness :
    (calculate_outcome "EXIT" "CLOSE" 100 150 90 120 31 "timeout").pnl = 0
    ∧ (calculate_outcome "EXIT" "CLOSE" 100 150 90 120 31 "timeout").return_pct = 0
    ∧ (calculate_outcome "EXIT" "CLOSE" 100 150 90 120 31 "timeout").outcome = "failure" :=
  c10_close_outcome "EXIT" "CLOSE" 100 150 90 120 31 "timeout"
    (by decide) (by decide)

/- ===== Theorems: C5, C6 ===== -/

/-- C5 counterexample: a LONG prediction (entry 100, stop 95, target
120) whose series has a single bar with low 94 ≤ stop 95 and no earlier
bar at all; the bar lies 31 days after issue, so the evaluator returns
the timeout outcome at that close (97), not the stop_loss label at the
stop price that the claim requires for every such series. -/
theorem c5_counterexample :
    evaluate_prediction_outcome "BUY" "LONG" 100 95 120
        [{ days_held := 31, high := 100, low := 94, close := 97 }]
      = some ("timeout",
          calculate_outcome "BUY" "LONG" 100 97 95 120 31 "timeout")
    ∧ "timeout" ≠ "stop_loss" := by
  refine ⟨?_, by decide⟩
  simp [evaluate_prediction_outcome]

/-- C6 counterexample: a LONG prediction (entry 100, stop 90, target
120) whose series crosses neither boundary but ends 5 days after issue,
before any bar beyond the 30-day window exists; the evaluator returns
none (outcome deferred), not the timeout outcome the claim requires. -/
theorem c6_counterexample :
    evaluate_prediction_outcome "BUY" "LONG" 100 90 120
        [{ days_held := 5, high := 100, low := 95, close := 100 }] = none := by
  simp [evaluate_prediction_outcome]
  norm_num

/-- Condition under which a bar fires neither the stop-loss nor the
take-profit branch of the evaluator walk for the given prediction
type. -/
def notCrossing (pred_type : String) (sl tp : ℚ) (a : DayData) : Prop :=
  if pred_type = "LONG" then sl < a.low ∧ a.high < tp
  else if pred_type = "SHORT" then a.high < sl ∧ tp < a.low
  else True

instance (pred_type : String) (sl tp : ℚ) (a : DayData) :
    Decidable (notCrossing pred_type sl tp a) := by
  unfold notCrossing
  infer_instance

/-- Bars that fire no branch of the evaluator walk (dated on or before
the issue date, or inside the 30-day window and crossing neither
boundary) are skipped: the walk over any such prefix reduces to the walk
over the remainder of the series. -/
lemma evaluate_skip (action pred_type : String) (entry sl tp : ℚ)
    (pre rest : List DayData)
    (hpre : ∀ a ∈ pre, a.days_held ≤ 30 ∧
      (0 < a.days_held → notCrossing pred_type sl tp a)) :
    evaluate_prediction_outcome action pred_type entry sl tp (pre ++ rest)
      = evaluate_prediction_outcome action pred_type entry sl tp rest := by
  induction pre with
  | nil => rfl
  | cons a pre ih =>
      have ha := hpre a (List.mem_cons_self a pre)
      have hrest : ∀ x ∈ pre, x.days_held ≤ 30 ∧
          (0 < x.days_held → notCrossing pred_type sl tp x) :=
        fun x hx => hpre x (List.mem_cons_of_mem a hx)
      rw [List.cons_append]
      by_cases h0 : a.days_held ≤ 0
      · simp only [evaluate_prediction_outcome, if_pos h0]
        exact ih hrest
      · have h30 : ¬ 30 < a.days_held := by omega
        by_cases hL : pred_type = "LONG"
        · subst hL
          have hnc := ha.2 (by omega)
          simp only [notCrossing, if_pos rfl] at hnc
          have hs : ¬ a.low ≤ sl := by linarith [hnc.1]
          have ht : ¬ tp ≤ a.high := by linarith [hnc.2]
          simp only [evaluate_prediction_outcome]
          simp only [if_neg h0, if_neg h30]
          simp [hs, ht]
          exact ih hrest
        · by_cases hS : pred_type = "SHORT"
          · subst hS
            have hnc := ha.2 (by omega)
            simp only [notCrossing] at hnc
            norm_num at hnc
            have hs : ¬ sl ≤ a.high := by linarith [hnc.1]
            have ht : ¬ a.low ≤ tp := by linarith [hnc.2]
            simp only [evaluate_prediction_outcome]
            simp only [if_neg h0, if_neg h30]
            simp [hs, ht]
            exact ih hrest
          · simp only [evaluate_prediction_outcome]
            simp only [if_neg h0, if_neg h30, if_neg hL, if_neg hS]
            exact ih hrest

/-- Classification applied by calculate_outcome to the three outcome
labels: target_hit maps to success, stop_loss to failure, and timeout to
success exactly when the realized return is positive. -/
lemma calculate_outcome_classification (action pt : String) (e x sl tp : ℚ) (d : ℤ) :
    (calculate_outcome action pt e x sl tp d "target_hit").outcome = "success"
    ∧ (calculate_outcome action pt e x sl tp d "stop_loss").outcome = "failure"
    ∧ ((calculate_outcome action pt e x sl tp d "timeout").outcome = "success"
        ↔ 0 < (calculate_outcome action pt e x sl tp d "timeout").return_pct) := by
  refine ⟨by simp [calculate_outcome], by simp [calculate_outcome], ?_⟩
  simp only [calculate_outcome]
  by_cases hr : (0:ℚ) <
      (if pt = "LONG" then (x - e) / e else if pt = "SHORT" then (e - x) / e else 0)
  · simp [hr]
  · simp [hr]

/-- C5 amended: restrict the claim to a stop-touching bar that lies
within the 30-day holding window with every earlier bar also within the
window (bars on or before the issue date excluded). Taking the first
stop-touching bar, so that earlier bars cross neither boundary, the
evaluator labels the prediction stop_loss (never target_hit) and exits
at the stop_loss price, even when the same bar also touches the
take-profit boundary; inequalities mirrored for SHORT. The original
claim fails only when the stop touch happens beyond the window
(c5_counterexample). -/
theorem c5_amended (action : String) (entry sl tp : ℚ)
    (pre post : List DayData) (b : DayData) :
    ((∀ a ∈ pre, a.days_held ≤ 30 ∧ (0 < a.days_held → notCrossing "LONG" sl tp a)) →
      0 < b.days_held → b.days_held ≤ 30 → b.low ≤ sl →
      evaluate_prediction_outcome action "LONG" entry sl tp (pre ++ b :: post)
        = some ("stop_loss",
            calculate_outcome action "LONG" entry sl sl tp b.days_held "stop_loss"))
    ∧ ((∀ a ∈ pre, a.days_held ≤ 30 ∧ (0 < a.days_held → notCrossing "SHORT" sl tp a)) →
      0 < b.days_held → b.days_held ≤ 30 → sl ≤ b.high →
      evaluate_prediction_outcome action "SHORT" entry sl tp (pre ++ b :: post)
        = some ("stop_loss",
            calculate_outcome action "SHORT" entry sl sl tp b.days_held "stop_loss")) := by
  constructor
  · intro hpre hb0 hb30 hbl
    rw [evaluate_skip action "LONG" entry sl tp pre (b :: post) hpre]
    simp only [evaluate_prediction_outcome]
    have h0 : ¬ b.days_held ≤ 0 := by omega
    have h30 : ¬ 30 < b.days_held := by omega
    simp [h0, h30, hbl]
  · intro hpre hb0 hb30 hbh
    rw [evaluate_skip action "SHORT" entry sl tp pre (b :: post) hpre]
    simp only [evaluate_prediction_outcome]
    have h0 : ¬ b.days_held ≤ 0 := by omega
    have h30 : ¬ 30 < b.days_held := by omega
    simp [h0, h30, hbh]

/-- C5 amended witness: the LONG part applied to a two-bar series whose
second bar (2 days after issue) touches both the stop (low 94 ≤ 95) and
the target (high 121 ≥ 120); the stop wins. -/
theorem c5_amended_witness :
    evaluate_prediction_outcome "BUY" "LONG" 100 95 120
        ([{ days_held := 1, high := 96, low := 96, close := 96 }] ++
          { days_held := 2, high := 121, low := 94, close := 96 } :: [])
      = some ("stop_loss", calculate_outcome "BUY" "LONG" 100 95 95 120 2 "stop_loss") :=
  (c5_amended "BUY" 100 95 120
      [{ days_held := 1, high := 96, low := 96, close := 96 }] []
      { days_held := 2, high := 121, low := 94, close := 96 }).1
    (by decide) (by decide) (by decide) (by decide)

/-- C6 amended: restrict the claim to a series that actually contains a
bar beyond the 30-day window; when every earlier bar is within the
window and crosses neither boundary, the evaluator returns the timeout
outcome at the close of the first bar beyond the window (a series that
ends inside the window yields none instead — c6_counterexample). The
classification part of the claim holds as stated: target_hit maps to
success, stop_loss to failure, and timeout to success exactly when
return_pct > 0. -/
theorem c6_amended (action pred_type : String) (entry sl tp : ℚ)
    (pre post : List DayData) (b : DayData)
    (hpre : ∀ a ∈ pre, a.days_held ≤ 30 ∧
      (0 < a.days_held → notCrossing pred_type sl tp a))
    (hb : 30 < b.days_held) :
    evaluate_prediction_outcome action pred_type entry sl tp (pre ++ b :: post)
      = some ("timeout",
          calculate_outcome action pred_type entry b.close sl tp b.days_held "timeout")
    ∧ ((calculate_outcome action pred_type entry b.close sl tp b.days_held
          "timeout").outcome = "success"
        ↔ 0 < (calculate_outcome action pred_type entry b.close sl tp b.days_held
          "timeout").return_pct)
    ∧ (calculate_outcome action pred_type entry sl sl tp b.days_held
          "target_hit").outcome = "success"
    ∧ (calculate_outcome action pred_type entry sl sl tp b.days_held
          "stop_loss").outcome = "failure" := by
  refine ⟨?_, (calculate_outcome_classification action pred_type entry b.close sl tp
      b.days_held).2.2,
    (calculate_outcome_classification action pred_type entry sl sl tp b.days_held).1,
    (calculate_outcome_classification action pred_type entry sl sl tp b.days_held).2.1⟩
  rw [evaluate_skip action pred_type entry sl tp pre (b :: post) hpre]
  simp only [evaluate_prediction_outcome]
  have h0 : ¬ b.days_held ≤ 0 := by omega
  simp [h0, hb]

/-- C6 amended witness: a series with one quiet in-window bar and one
bar 31 days out produces the timeout outcome at the latter close, with
both hypotheses discharged concretely. -/
theorem c6_amended_witness :
    evaluate_prediction_outcome "BUY" "LONG" 100 90 120
        ([{ days_held := 5, high := 100, low := 95, close := 100 }] ++
          { days_held := 31, high := 100, low := 94, close := 97 } :: [])
      = some ("timeout", calculate_outcome "BUY" "LONG" 100 97 90 120 31 "timeout") :=
  (c6_amended "BUY" "LONG" 100 90 120
      [{ days_held := 5, high := 100, low := 95, close := 100 }] []
      { days_held := 31, high := 100, low := 94, close := 97 }
      (by decide) (by decide)).1

/- ===== Prediction storage: PredictionTracker.store_prediction ===== -/

/-- Row of the predictions table as stored by
`PredictionTracker.store_prediction` (prediction_tracker.py lines
207-232); outcome columns start null and are omitted here, free-text
columns are omitted. -/
structure PredRow where
  symbol : String
  date_issued : String
  action : String
  typ : String
  confidence : ℚ
  entry_price : ℚ
  stop_loss : ℚ
  take_profit : ℚ
  position_size : ℤ
deriving DecidableEq, Repr

/-- Duplicate test of store_prediction: the SELECT at
prediction_tracker.py lines 211-214 matches on symbol, date_issued and
action only. -/
def sameKey (r p : PredRow) : Bool :=
  r.symbol == p.symbol && r.date_issued == p.date_issued && r.action == p.action

/-- `PredictionTracker.store_prediction` (prediction_tracker.py lines
207-232) on the predictions table modelled as a list of rows: if a row
with the same (symbol, date_issued, action) exists, return the table
unchanged, else append the new row. -/
def store_prediction (db : List PredRow) (p : PredRow) : List PredRow :=
  if db.any (fun r => sameKey r p) then db else db ++ [p]

/-- C9: store_prediction is idempotent on the key (symbol, date_issued,
action): when a row with the same key already exists the call inserts
nothing and leaves the table unchanged, and storing the same record
twice yields the same table as storing it once. -/
theorem c9_store_idempotent (db : List PredRow) (p : PredRow) :
    ((∃ r ∈ db, sameKey r p = true) → store_prediction db p = db)
    ∧ store_prediction (store_prediction db p) p = store_prediction db p := by
  have hself : sameKey p p = true := by
    simp [sameKey]
  constructor
  · intro ⟨r, hr, hk⟩
    unfold store_prediction
    rw [if_pos (List.any_eq_true.mpr ⟨r, hr, hk⟩)]
  · by_cases h : db.any (fun r => sameKey r p) = true
    · simp [store_prediction, h]
    · have hap : (db ++ [p]).any (fun r => sameKey r p) = true := by
        rw [List.any_append]
        simp [hself]
      simp [store_prediction, h, hap]

/-- C9 witness: storing a concrete record into a table already holding
a row with the same key (different confidence) changes nothing. -/
theorem c9_store_idempotent_witness :
    store_prediction
        [{ symbol := "AAPL", date_issued := "2025-01-02", action := "BUY",
           typ := "LONG", confidence := 4/5, entry_price := 100,
           stop_loss := 92, take_profit := 115, position_size := 100 }]
        { symbol := "AAPL", date_issued := "2025-01-02", action := "BUY",
          typ := "LONG", confidence := 3/5, entry_price := 101,
          stop_loss := 93, take_profit := 116, position_size := 50 }
      = [{ symbol := "AAPL", date_issued := "2025-01-02", action := "BUY",
           typ := "LONG", confidence := 4/5, entry_price := 100,
           stop_loss := 92, take_profit := 115, position_size := 100 }] :=
  (c9_store_idempotent _ _).1 (by decide)

/- ===== Trigger generator: PredictionTracker.analyze_prediction_progression ===== -/

/-- Aggregated per-strategy metrics consumed by the trigger generator
(the fields of StrategyPerformance it reads). -/
structure StrategyPerf where
  accuracy_rate : ℚ
  win_rate : ℚ
  total_predictions : ℕ
  avg_days_held : ℚ
deriving DecidableEq, Repr

/-- One row of the recent-predictions query feeding
analyze_prediction_progression (symbol column dropped: rows are already
grouped per symbol, most recent first). -/
structure RecentPred where
  action : String
  confidence : ℚ
  strategies : List String
  entry_price : ℚ
  stop_loss : ℚ
  take_profit : ℚ
deriving DecidableEq, Repr

/-- Trigger record built at prediction_tracker.py lines 581-593
(reasoning text omitted). -/
structure TradingTrigger where
  symbol : String
  action : String
  confidence : ℚ
  strategy_backing : List String
  entry_price : ℚ
  stop_loss : ℚ
  take_profit : ℚ
  position_size : ℤ
  risk_level : String
  time_horizon : String
deriving DecidableEq, Repr

/-- A strategy is a reliable backer when it appears in the performance
map with accuracy_rate > 0.6 and total_predictions ≥ 5
(prediction_tracker.py line 542). -/
def isReliable (perf : String → Option StrategyPerf) (s : String) : Bool :=
  match perf s with
  | some q => decide (6/10 < q.accuracy_rate) && decide (5 ≤ q.total_predictions)
  | none => false

/-- Names of the reliable backing strategies accumulated by the loop at
prediction_tracker.py lines 539-544, in order. -/
def reliable_strategies (perf : String → Option StrategyPerf)
    (strats : List String) : List String :=
  strats.filter (isReliable perf)

/-- Backing strength: the same loop sums accuracy_rate * win_rate over
the reliable backers. -/
def backing_strength (perf : String → Option StrategyPerf)
    (strats : List String) : ℚ :=
  ((strats.filter (isReliable perf)).map fun s =>
    match perf s with
    | some q => q.accuracy_rate * q.win_rate
    | none => 0).sum

/-- Action consistency (prediction_tracker.py lines 547-548): the count
of the latest action among the first five rows of the date-descending
prediction list, divided by how many rows that slice has. -/
def action_consistency (latest_action : String) (predictions : List RecentPred) : ℚ :=
  let recent := (predictions.take 5).map RecentPred.action
  (recent.count latest_action : ℚ) / (recent.length : ℚ)

/-- Python int() truncates toward zero. -/
def pyInt (q : ℚ) : ℤ := if 0 ≤ q then ⌊q⌋ else ⌈q⌉

/-- `PredictionTracker.analyze_prediction_progression`
(prediction_tracker.py lines 518-595). `current_price` is none when the
price cache is missing; a price of 0 is also rejected by the source
falsiness test `if not current_price`. The caller only passes lists of
at least two predictions; an empty list (which would raise IndexError in
the source) maps to none. -/
def analyze_prediction_progression (symbol : String) (current_price : Option ℚ)
    (predictions : List RecentPred) (perf : String → Option StrategyPerf) :
    Option TradingTrigger :=
  match current_price with
  | none => none
  | some price =>
    if price = 0 then none
    else
      match predictions with
      | [] => none
      | latest :: _ =>
        let bs := backing_strength perf latest.strategies
        let reliable := reliable_strategies perf latest.strategies
        let ac := action_consistency latest.action predictions
        let tc := (latest.confidence + bs + ac) / 3
        if 7/10 ≤ tc ∧ reliable ≠ [] then
          some { symbol := symbol
                 action := latest.action
                 confidence := tc
                 strategy_backing := reliable
                 entry_price := price
                 stop_loss := latest.stop_loss
                 take_profit := latest.take_profit
                 position_size := pyInt (1000 * min (tc * (3/2)) 2 / price)
                 risk_level := if 85/100 ≤ tc then "LOW"
                               else if 75/100 ≤ tc then "MEDIUM" else "HIGH"
                 time_horizon :=
                   let avg_days := ((reliable.map fun s =>
                       match perf s with
                       | some q => q.avg_days_held
                       | none => 0).sum) / (reliable.length : ℚ)
                   if avg_days ≤ 5 then "SHORT"
                   else if avg_days ≤ 15 then "MEDIUM" else "LONG" }
        else none

/-- C7: action_consistency is the fraction of the last five (or fewer)
recent predictions sharing the latest action; every emitted trigger
carries confidence equal to the arithmetic mean of the latest
confidence, the backing strength and the action consistency; and a
trigger is emitted only if that confidence is at least 0.7 and at least
one backing strategy is reliable (accuracy_rate > 0.6 and
total_predictions ≥ 5 in the performance map). -/
theorem c7_trigger (symbol : String) (cp : Option ℚ) (preds : List RecentPred)
    (perf : String → Option StrategyPerf) (latest : RecentPred)
    (rest : List RecentPred) (hp : preds = latest :: rest) :
    action_consistency latest.action preds
        = (((preds.take 5).map RecentPred.action).count latest.action : ℚ)
            / ((min 5 preds.length : ℕ) : ℚ)
    ∧ ∀ t, analyze_prediction_progression symbol cp preds perf = some t →
        t.confidence = (latest.confidence + backing_strength perf latest.strategies
            + action_consistency latest.action preds) / 3
        ∧ 7/10 ≤ t.confidence
        ∧ ∃ s ∈ latest.strategies, ∃ q, perf s = some q
            ∧ 6/10 < q.accuracy_rate ∧ 5 ≤ q.total_predictions := by
  constructor
  · simp [action_consistency, List.length_take, List.length_map]
  · intro t ht
    subst hp
    match cp with
    | none => simp [analyze_prediction_progression] at ht
    | some price =>
      by_cases hz : price = 0
      · simp [analyze_prediction_progression, hz] at ht
      · simp only [analyze_prediction_progression, if_neg hz] at ht
        by_cases hcond : 7/10 ≤ (latest.confidence
              + backing_strength perf latest.strategies
              + action_consistency latest.action (latest :: rest)) / 3
            ∧ reliable_strategies perf latest.strategies ≠ []
        · rw [if_pos hcond] at ht
          obtain ⟨x, hx⟩ := List.exists_mem_of_ne_nil _ hcond.2
          have hx2 := List.mem_filter.mp hx
          refine ⟨?_, ?_, x, hx2.1, ?_⟩
          · rw [← Option.some_inj.mp ht]
          · rw [← Option.some_inj.mp ht]
            exact hcond.1
          · have hb := hx2.2
            unfold isReliable at hb
            match hq : perf x with
            | none => rw [hq] at hb; simp at hb
            | some q =>
                rw [hq] at hb
                simp only [Bool.and_eq_true, decide_eq_true_eq] at hb
                exact ⟨q, rfl, hb.1, hb.2⟩
        · rw [if_neg hcond] at ht
          exact absurd ht (by simp)

/-- C7 witness: a concrete performance map with one reliable strategy
and three consistent BUY predictions; the theorem instance applied with
its hypothesis discharged. -/
theorem c7_trigger_witness :
    action_consistency "BUY"
        [{ action := "BUY", confidence := 9/10, strategies := ["MACD"],
           entry_price := 100, stop_loss := 92, take_profit := 115 },
         { action := "BUY", confidence := 8/10, strategies := ["MACD"],
           entry_price := 99, stop_loss := 91, take_profit := 114 },
         { action := "SELL", confidence := 5/10, strategies := ["MACD"],
           entry_price := 98, stop_loss := 90, take_profit := 113 }]
      = ((2 : ℕ) : ℚ) / ((3 : ℕ) : ℚ) := by
  have h := (c7_trigger "AAPL" (some 100)
      [{ action := "BUY", confidence := 9/10, strategies := ["MACD"],
         entry_price := 100, stop_loss := 92, take_profit := 115 },
       { action := "BUY", confidence := 8/10, strategies := ["MACD"],
         entry_price := 99, stop_loss := 91, take_profit := 114 },
       { action := "SELL", confidence := 5/10, strategies := ["MACD"],
         entry_price := 98, stop_loss := 90, take_profit := 113 }]
      (fun s => if s = "MACD"
        then some { accuracy_rate := 7/10, win_rate := 6/10,
                    total_predictions := 8, avg_days_held := 4 }
        else none)
      { action := "BUY", confidence := 9/10, strategies := ["MACD"],
        entry_price := 100, stop_loss := 92, take_profit := 115 }
      [{ action := "BUY", confidence := 8/10, strategies := ["MACD"],
         entry_price := 99, stop_loss := 91, take_profit := 114 },
       { action := "SELL", confidence := 5/10, strategies := ["MACD"],
         entry_price := 98, stop_loss := 90, take_profit := 113 }] rfl).1
  rw [h]
  norm_num [List.count_cons, List.count_nil]
  rw [if_neg (by decide : ¬ ("SELL" : String) = "BUY")]
  norm_num

/- ===== RSI: deploy-package/src/strategies/momentum.py ===== -/

/-- The gains/losses loop of `MomentumStrategy.calculate_rsi`
(momentum.py lines 32-42): one pass over consecutive price changes,
appending (change, 0) on a positive change and (0, |change|)
otherwise. -/
def gainsLosses : List ℚ → List ℚ × List ℚ
  | a :: b :: rest =>
    let gl := gainsLosses (b :: rest)
    if 0 < b - a then ((b - a) :: gl.1, 0 :: gl.2)
    else (0 :: gl.1, |b - a| :: gl.2)
  | _ => ([], [])

/-- Python slice xs[-n:], the trailing window: for n = 0 the whole list
(since xs[-0:] is xs[0:]), otherwise the last min(n, len) elements. -/
def pyLastSlice (n : ℕ) (xs : List ℚ) : List ℚ :=
  if n = 0 then xs else xs.drop (xs.length - n)

/-- np.mean as used on the nonempty trailing windows: sum divided by
length (division by zero yields 0 in ℚ; the source only reaches this
with a window of length ≥ 1 for period ≥ 1). -/
def npMean (xs : List ℚ) : ℚ := xs.sum / (xs.length : ℚ)

/-- Average gain over the trailing window of `period` changes. -/
def trailingAvgGain (prices : List ℚ) (period : ℕ) : ℚ :=
  npMean (pyLastSlice period (gainsLosses prices).1)

/-- Average loss over the trailing window of `period` changes. -/
def trailingAvgLoss (prices : List ℚ) (period : ℕ) : ℚ :=
  npMean (pyLastSlice period (gainsLosses prices).2)

/-- `MomentumStrategy.calculate_rsi` (momentum.py lines 27-55): neutral
50 on short input, 100 when the trailing average loss is 0, otherwise
100 - 100/(1 + avg_gain/avg_loss). The second guard (len(gains) <
period) is kept even though it is unreachable once the first guard
passes. -/
def calculate_rsi (prices : List ℚ) (period : ℕ) : ℚ :=
  if prices.length < period + 1 then 50
  else if (gainsLosses prices).1.length < period then 50
  else if trailingAvgLoss prices period = 0 then 100
  else 100 - 100 / (1 + trailingAvgGain prices period / trailingAvgLoss prices period)

/-- The gains and losses lists both have one entry per consecutive pair
of prices. -/
lemma gainsLosses_length (prices : List ℚ) :
    (gainsLosses prices).1.length = prices.length - 1
    ∧ (gainsLosses prices).2.length = prices.length - 1 := by
  induction prices with
  | nil => simp [gainsLosses]
  | cons a l ih =>
      cases l with
      | nil => simp [gainsLosses]
      | cons b rest =>
          by_cases hc : 0 < b - a
          · simp only [gainsLosses, if_pos hc]
            simp [ih.1, ih.2]
          · simp only [gainsLosses, if_neg hc]
            simp [ih.1, ih.2]

/-- C8: calculate_rsi returns neutral 50 when the price list has fewer
than period+1 points, returns 100 when the trailing average loss is 0,
and otherwise returns 100 - 100/(1 + avg_gain/avg_loss); being a total
function of the price list, it raises no error for short input or zero
losses. -/
theorem c8_rsi (prices : List ℚ) (period : ℕ) :
    (prices.length < period + 1 → calculate_rsi prices period = 50)
    ∧ (period + 1 ≤ prices.length → trailingAvgLoss prices period = 0 →
        calculate_rsi prices period = 100)
    ∧ (period + 1 ≤ prices.length → trailingAvgLoss prices period ≠ 0 →
        calculate_rsi prices period
          = 100 - 100 / (1 + trailingAvgGain prices period
              / trailingAvgLoss prices period)) := by
  refine ⟨fun hshort => ?_, fun hlen hz => ?_, fun hlen hz => ?_⟩
  · simp [calculate_rsi, hshort]
  · have h1 : ¬ prices.length < period + 1 := by omega
    have h2 : ¬ (gainsLosses prices).1.length < period := by
      rw [(gainsLosses_length prices).1]
      omega
    simp [calculate_rsi, h1, h2, hz]
  · have h1 : ¬ prices.length < period + 1 := by omega
    have h2 : ¬ (gainsLosses prices).1.length < period := by
      rw [(gainsLosses_length prices).1]
      omega
    simp [calculate_rsi, h1, h2, hz]

/-- C8 witness: the short-input case at a one-point list and the
general formula at prices [100, 101, 99, 102] with period 2, where the
trailing gains are [0, 3] and the trailing losses are [2, 0], giving
RSI = 100 - 100/(1 + (3/2)/1) = 60. -/
theorem c8_rsi_witness :
    calculate_rsi [100] 2 = 50
    ∧ calculate_rsi [100, 101, 99, 102] 2
        = 100 - 100 / (1 + trailingAvgGain [100, 101, 99, 102] 2
            / trailingAvgLoss [100, 101, 99, 102] 2)
    ∧ calculate_rsi [100, 101, 99, 102] 2 = 60 := by
  refine ⟨(c8_rsi [100] 2).1 (by decide), ?_, ?_⟩
  · exact (c8_rsi [100, 101, 99, 102] 2).2.2 (by decide)
      (by norm_num [trailingAvgLoss, npMean, pyLastSlice, gainsLosses])
  · norm_num [calculate_rsi, trailingAvgGain, trailingAvgLoss, npMean,
      pyLastSlice, gainsLosses]

/- ===== Ensemble strategy: src/src/strategies/ensemble.py ===== -/

/-- One component strategy as seen by `EnsembleStrategy.generate_signals`
(ensemble.py lines 109-154): the signal and raw confidence returned by
its generate_signals call, plus its current entry in
strategy_weights. -/
structure ComponentSignal where
  signal : String
  confidence : ℚ
  weight : ℚ
deriving DecidableEq, Repr

/-- Collection loop at ensemble.py lines 115-124: keep non-hold signals
and apply the strategy weight to the confidence. -/
def collectSignals (comps : List ComponentSignal) : List (String × ℚ) :=
  (comps.filter (fun c => c.signal != "hold")).map
    (fun c => (c.signal, c.confidence * c.weight))

/-- Weighted-confidence bucket of one SignalType (the signal_counts dict
entries at ensemble.py lines 130-135). -/
def bucketSum (t : String) (sigs : List (String × ℚ)) : ℚ :=
  ((sigs.filter (fun p => p.1 == t)).map Prod.snd).sum

/-- `EnsembleStrategy.generate_signals` (ensemble.py lines 109-154)
given the component outputs: empty collection or zero total confidence
yields ("hold", 0); otherwise the buckets are normalized by the total of
all weighted confidences and the dominant signal (Python max keeps the
first maximum in the iteration order long, short, exit) is returned when
it strictly exceeds min_confidence_threshold, else ("hold", 0). The
insufficient-history guard at the top of the source is outside this
model. -/
def ensemble_generate_signals (threshold : ℚ)
    (comps : List ComponentSignal) : String × ℚ :=
  let sigs := collectSignals comps
  if sigs.isEmpty then ("hold", 0)
  else
    let total := (sigs.map Prod.snd).sum
    if total = 0 then ("hold", 0)
    else
      let nl := bucketSum "long" sigs / total
      let ns := bucketSum "short" sigs / total
      let ne := bucketSum "exit" sigs / total
      let dom := if nl < ns then (if ns < ne then ("exit", ne) else ("short", ns))
                 else (if nl < ne then ("exit", ne) else ("long", nl))
      if threshold < dom.2 then dom else ("hold", 0)

/-- Combination rule exactly as claim C4 words it: discard every
component signal whose confidence is below the threshold (and hold
signals) before accumulation, then accumulate, normalize and pick the
dominant bucket. Used only to exhibit the divergence from the source
behaviour. -/
def claimCombineC4 (threshold : ℚ) (comps : List ComponentSignal) : String × ℚ :=
  let surviving := comps.filter
    (fun c => (c.signal != "hold") && decide (threshold ≤ c.confidence))
  let contribs := surviving.map (fun c => (c.signal, c.confidence * c.weight))
  if contribs.isEmpty then ("hold", 0)
  else
    let total := (contribs.map Prod.snd).sum
    if total = 0 then ("hold", 0)
    else
      let nl := bucketSum "long" contribs / total
      let ns := bucketSum "short" contribs / total
      let ne := bucketSum "exit" contribs / total
      let dom := if nl < ns then (if ns < ne then ("exit", ne) else ("short", ns))
                 else (if nl < ne then ("exit", ne) else ("long", nl))
      if threshold < dom.2 then dom else ("hold", 0)

/-- C4 counterexample: a single component signalling long with raw
confidence 0.1 (below the default threshold 0.3) and weight 1. The
claim discards it and yields Hold, but the source never filters by
confidence at collection: the signal survives, its bucket normalizes to
1 > 0.3, and ("long", 1) is returned. -/
theorem c4_counterexample :
    ensemble_generate_signals (3/10)
        [{ signal := "long", confidence := 1/10, weight := 1 }] = ("long", 1)
    ∧ claimCombineC4 (3/10)
        [{ signal := "long", confidence := 1/10, weight := 1 }] = ("hold", 0)
    ∧ (("long", (1 : ℚ)) ≠ ("hold", (0 : ℚ))) := by
  refine ⟨?_, ?_, by simp⟩
  · have h1 : collectSignals [{ signal := "long", confidence := 1/10, weight := 1 }]
        = [("long", 1/10)] := by
      simp [collectSignals, List.filter]
    simp only [ensemble_generate_signals, h1]
    norm_num [bucketSum, List.filter,
      show (("long" : String) == "short") = false from by decide,
      show (("long" : String) == "exit") = false from by decide,
      show (("long" : String) == "long") = true from by decide]
  · have h2 : List.filter
        (fun c : ComponentSignal =>
          (c.signal != "hold") && decide ((3:ℚ)/10 ≤ c.confidence))
        [{ signal := "long", confidence := 1/10, weight := 1 }] = [] := by
      simp [List.filter]
      norm_num
    simp only [claimCombineC4]
    rw [h2]
    simp

/-- Bucket decomposition of one cons step. -/
lemma bucketSum_cons (t : String) (p : String × ℚ) (rest : List (String × ℚ)) :
    bucketSum t (p :: rest)
      = (if p.1 == t then p.2 else 0) + bucketSum t rest := by
  by_cases h : (p.1 == t) = true
  · simp [bucketSum, List.filter_cons, h]
  · simp [bucketSum, List.filter_cons, h]

/-- When every accumulated signal is long, short or exit, the total
weighted confidence is the sum of the three buckets. -/
lemma bucket_total_split (sigs : List (String × ℚ))
    (hdom : ∀ p ∈ sigs, p.1 = "long" ∨ p.1 = "short" ∨ p.1 = "exit") :
    (sigs.map Prod.snd).sum
      = bucketSum "long" sigs + bucketSum "short" sigs + bucketSum "exit" sigs := by
  induction sigs with
  | nil => simp [bucketSum]
  | cons p rest ih =>
      have hp := hdom p (List.mem_cons_self p rest)
      have hih := ih (fun q hq => hdom q (List.mem_cons_of_mem p hq))
      rw [List.map_cons, List.sum_cons, hih, bucketSum_cons, bucketSum_cons,
        bucketSum_cons]
      rcases hp with h | h | h <;> rw [h]
      · rw [show (("long" : String) == "long") = true from by decide,
          show (("long" : String) == "short") = false from by decide,
          show (("long" : String) == "exit") = false from by decide]
        simp
        ring
      · rw [show (("short" : String) == "long") = false from by decide,
          show (("short" : String) == "short") = true from by decide,
          show (("short" : String) == "exit") = false from by decide]
        simp
        ring
      · rw [show (("exit" : String) == "long") = false from by decide,
          show (("exit" : String) == "short") = false from by decide,
          show (("exit" : String) == "exit") = true from by decide]
        simp
        ring

/-- Combination rule as amended: only hold signals are discarded; every
surviving signal contributes confidence*weight to its SignalType
bucket regardless of how small its confidence is; the buckets are
normalized by the total of the three buckets; the dominant bucket (ties
resolved in the order long, short, exit) is returned when it strictly
exceeds the threshold, else Hold. -/
def amendedCombineC4 (threshold : ℚ) (comps : List ComponentSignal) : String × ℚ :=
  let surviving := comps.filter (fun c => c.signal != "hold")
  let contribs := surviving.map (fun c => (c.signal, c.confidence * c.weight))
  if surviving.isEmpty then ("hold", 0)
  else
    let total := bucketSum "long" contribs + bucketSum "short" contribs
        + bucketSum "exit" contribs
    if total = 0 then ("hold", 0)
    else
      let nl := bucketSum "long" contribs / total
      let ns := bucketSum "short" contribs / total
      let ne := bucketSum "exit" contribs / total
      let dom := if nl < ns then (if ns < ne then ("exit", ne) else ("short", ns))
                 else (if nl < ne then ("exit", ne) else ("long", nl))
      if threshold < dom.2 then dom else ("hold", 0)

/-- C4 amended: for every threshold and every list of component outputs
whose signals are the four SignalType literals, the source combination
equals the amended rule: no confidence filtering happens before
accumulation (only hold signals are dropped), and the threshold is
applied once, to the final normalized dominant bucket. -/
theorem c4_amended (threshold : ℚ) (comps : List ComponentSignal)
    (hdom : ∀ c ∈ comps, c.signal = "long" ∨ c.signal = "short"
        ∨ c.signal = "exit" ∨ c.signal = "hold") :
    ensemble_generate_signals threshold comps = amendedCombineC4 threshold comps := by
  have hdom2 : ∀ p ∈ (comps.filter (fun c => c.signal != "hold")).map
      (fun c => (c.signal, c.confidence * c.weight)),
      p.1 = "long" ∨ p.1 = "short" ∨ p.1 = "exit" := by
    intro p hp
    obtain ⟨c, hc, hpc⟩ := List.mem_map.mp hp
    have hmem := List.mem_filter.mp hc
    have hne : c.signal ≠ "hold" := by
      intro h
      rw [h] at hmem
      simp at hmem
    rcases hdom c hmem.1 with h | h | h | h
    · left; rw [← hpc]; exact h
    · right; left; rw [← hpc]; exact h
    · right; right; rw [← hpc]; exact h
    · exact absurd h hne
  have htot := bucket_total_split _ hdom2
  have hie : ((comps.filter (fun c => c.signal != "hold")).map
      (fun c => (c.signal, c.confidence * c.weight))).isEmpty
      = (comps.filter (fun c => c.signal != "hold")).isEmpty := by
    cases comps.filter (fun c => c.signal != "hold") <;> simp
  simp only [ensemble_generate_signals, amendedCombineC4, collectSignals]
  rw [hie, htot]

/-- C4 amended witness: the theorem instance at threshold 0.3 with one
long component below the claimed filter and one hold component, its
domain hypothesis discharged concretely. -/
theorem c4_amended_witness :
    ensemble_generate_signals (3/10)
        [{ signal := "long", confidence := 1/10, weight := 1 },
         { signal := "hold", confidence := 9/10, weight := 1 }]
      = amendedCombineC4 (3/10)
        [{ signal := "long", confidence := 1/10, weight := 1 },
         { signal := "hold", confidence := 9/10, weight := 1 }] :=
  c4_amended (3/10)
    [{ signal := "long", confidence := 1/10, weight := 1 },
     { signal := "hold", confidence := 9/10, weight := 1 }]
    (by decide)

/-- One component of an EnsembleStrategy as seen by `_update_weights`
(ensemble.py lines 83-107): its key in strategy_weights, its current
weight and its performance_history list. -/
structure EnsembleComponent where
  name : String
  weight : ℚ
  history : List ℚ
deriving DecidableEq, Repr

/-- The unnormalized new_weights entry of one component (ensemble.py
lines 89-97): its previous weight when its history is empty, else the
exponentially weighted performance score floored at 0.1. `score`
abstracts np.average(history, weights=np.exp([i/len(history) ...])),
whose weights are transcendental; every theorem below holds for every
score function, and concrete instances use a score that coincides with
the source average on the histories involved. -/
def unnormalizedTarget (score : List ℚ → ℚ) (c : EnsembleComponent) : ℚ :=
  if c.history.isEmpty then c.weight else max (1/10) (score c.history)

/-- total_score (ensemble.py lines 85-98): only components with
non-empty history contribute (the continue on line 92 skips the
accumulation for empty ones). -/
def totalScore (score : List ℚ → ℚ) (comps : List EnsembleComponent) : ℚ :=
  ((comps.filter (fun c => !c.history.isEmpty)).map
    (fun c => max (1/10) (score c.history))).sum

/-- `EnsembleStrategy._update_weights` (ensemble.py lines 83-107): when
total_score > 0, EVERY component (the normalization loop runs over all
of new_weights, including empty-history entries) moves toward its
normalized target by the learning rate; otherwise nothing changes. -/
def update_weights (learning_rate : ℚ) (score : List ℚ → ℚ)
    (comps : List EnsembleComponent) : List EnsembleComponent :=
  let ts := totalScore score comps
  if 0 < ts then
    comps.map (fun c =>
      { c with weight := c.weight
          + learning_rate * (unnormalizedTarget score c / ts - c.weight) })
  else comps

/-- Score function that agrees with the source exponentially weighted
average on histories of length one: np.average([x], w) = x for any
positive weight vector w, here w = [exp(0)]. -/
def singletonScore : List ℚ → ℚ
  | [x] => x
  | _ => 0

/-- C3 counterexample: two components, A with history [2] (so its
exponentially weighted average is 2) and B with empty history, both at
weight 1 and learning rate 0.1. total_score = 2, so the normalization
step moves B toward 1/2: B ends at 0.95, not at its previous weight 1
as the claim requires. -/
theorem c3_counterexample :
    update_weights (1/10) singletonScore
        [{ name := "A", weight := 1, history := [2] },
         { name := "B", weight := 1, history := [] }]
      = [{ name := "A", weight := 1, history := [2] },
         { name := "B", weight := 19/20, history := [] }]
    ∧ ((19/20 : ℚ) ≠ 1) := by
  have hts : totalScore singletonScore
      [{ name := "A", weight := 1, history := [2] },
       { name := "B", weight := 1, history := [] }] = 2 := by
    simp [totalScore, List.filter, singletonScore]
    norm_num [max_def]
  refine ⟨?_, by norm_num⟩
  simp only [update_weights, hts]
  norm_num [unnormalizedTarget, singletonScore, max_def]

/-- C3 amended: a component with empty performance history contributes
its previous weight as its unnormalized target and is excluded from
total_score, and the guard total_score > 0 prevents any division by
zero; consequently, when EVERY component has empty history the update
leaves all weights exactly unchanged, but when total_score is positive
the normalization loop also moves each empty-history component, to
previous + learning_rate * (previous / total_score - previous), so its
weight is generally not held at its previous value. -/
theorem c3_amended (lr : ℚ) (score : List ℚ → ℚ) (comps : List EnsembleComponent) :
    ((∀ c ∈ comps, c.history = []) → update_weights lr score comps = comps)
    ∧ (0 < totalScore score comps → ∀ c ∈ comps, c.history = [] →
        { c with weight := c.weight
            + lr * (c.weight / totalScore score comps - c.weight) }
          ∈ update_weights lr score comps) := by
  constructor
  · intro hall
    have hfil : comps.filter (fun c => !c.history.isEmpty) = [] := by
      rw [List.filter_eq_nil_iff]
      intro c hc
      simp [hall c hc]
    have hts : totalScore score comps = 0 := by
      simp [totalScore, hfil]
    simp [update_weights, hts]
  · intro hts c hc hemp
    simp only [update_weights, if_pos hts]
    refine List.mem_map.mpr ⟨c, hc, ?_⟩
    have hu : unnormalizedTarget score c = c.weight := by
      simp [unnormalizedTarget, hemp]
    rw [hu]

/-- C3 amended witness: both parts at concrete inputs — a singleton
all-empty ensemble is left unchanged, and in the two-component ensemble
of the counterexample the empty-history component B lands exactly at
1 + 0.1*(1/total_score - 1). -/
theorem c3_amended_witness :
    update_weights (1/10) singletonScore
        [{ name := "B", weight := 1, history := [] }]
      = [{ name := "B", weight := 1, history := [] }]
    ∧ { name := "B",
        weight := 1 + (1/10) * ((1 : ℚ) / totalScore singletonScore
          [{ name := "A", weight := 1, history := [2] },
           { name := "B", weight := 1, history := [] }] - 1),
        history := ([] : List ℚ) }
        ∈ update_weights (1/10) singletonScore
          [{ name := "A", weight := 1, history := [2] },
           { name := "B", weight := 1, history := [] }] := by
  constructor
  · exact (c3_amended (1/10) singletonScore
      [{ name := "B", weight := 1, history := [] }]).1 (by decide)
  · exact (c3_amended (1/10) singletonScore
      [{ name := "A", weight := 1, history := [2] },
       { name := "B", weight := 1, history := [] }]).2
      (by norm_num [totalScore, List.filter, singletonScore, max_def])
      { name := "B", weight := 1, history := [] } (by decide) rfl
